import Mathlib

/-!
Shallow embedding of the HTML-fragments routing demo.

Two source modules are modelled:
* `FragRouter` — the client-side router library (`Route`, `routeEquals`,
  `zip`, `BaseRouter.navigate` and its outlet cache).
* `SwServer` — the service-worker server (`Streamable`, `normalize`,
  `stream`/`interleave`, `ServiceWorkerServer.serve`).

Asynchronous generators are modelled by their execution traces: the finite
list of items they yield, together with an optional error that terminated
them (`none` = normal completion).
-/

deriving instance DecidableEq for Except

/-- Execution trace of an async generator: the items it yielded, in order,
and the error that aborted it, if any (`none` = ran to completion). -/
structure GenTrace (T : Type) where
  items : List T
  err : Option String
deriving DecidableEq, Repr

/-- The `Streamable<T>` union type: a plain value, a promise (already
resolved to a value or a rejection), a sync generator, or an async
generator; the two generator shapes are modelled by their traces. -/
inductive Streamable (T : Type) where
  | immediate : T → Streamable T
  | deferred : Except String T → Streamable T
  | gen : GenTrace T → Streamable T
  | asyncGen : GenTrace T → Streamable T
deriving DecidableEq, Repr

namespace FragRouter

/-- A `Route` value: `path` from `url.pathname`, `params` the ordered
key/value pairs of `url.searchParams`, `hash` from `url.hash`. -/
structure Route where
  path : String
  params : List (String × String)
  hash : String
deriving DecidableEq, Repr

/-- Serialization of `URLSearchParams.toString()`: `k=v` pairs joined
with `&` (percent-encoding is not modelled; examples stay plain). -/
def paramsToString (params : List (String × String)) : String :=
  String.intercalate "&" (params.map fun p => p.1 ++ "=" ++ p.2)

/-- A route's `toString()` from `createRoute`:
`path + (params === '' ? '' : '?' + params) + hash`. -/
def Route.canonical (r : Route) : String :=
  let params := paramsToString r.params
  r.path ++ (if params = "" then "" else "?" ++ params) ++ r.hash

/-- The library's `zip`: throws when the arrays have different lengths,
otherwise pairs them up elementwise. -/
def zip {T1 T2 : Type} (first : List T1) (second : List T2) :
    Except String (List (T1 × T2)) :=
  if first.length ≠ second.length then
    Except.error ("Cannot zip() arrays of differing lengths (" ++
      toString first.length ++ " !== " ++ toString second.length ++ ").")
  else
    Except.ok (first.zip second)

/-- The `for` loop body of `routeEquals` over the zipped parameter pairs:
returns `false` at the first name or value mismatch, `true` otherwise. -/
def paramsPairsEqual : List ((String × String) × (String × String)) → Bool
  | [] => true
  | ((firstName, firstValue), (secondName, secondValue)) :: rest =>
    if firstName ≠ secondName then false
    else if firstValue ≠ secondValue then false
    else paramsPairsEqual rest

/-- Embedding of `routeEquals`: short-circuits on `path` and `hash`, then
zips the parameter lists (which may throw) and compares pairwise in
order. -/
def routeEquals (first second : Route) : Except String Bool :=
  if first.path ≠ second.path then Except.ok false
  else if first.hash ≠ second.hash then Except.ok false
  else
    match zip first.params second.params with
    | Except.error e => Except.error e
    | Except.ok zippedParams => Except.ok (paramsPairsEqual zippedParams)

end FragRouter

namespace SwServer

/-- Sequential concatenation of generator traces, as produced by a loop of
`yield*` steps: traces are replayed in order until the first error, which
aborts the whole run. -/
def concatTraces {T : Type} : List (GenTrace T) → GenTrace T
  | [] => ⟨[], none⟩
  | t :: ts =>
    match t.err with
    | some e => ⟨t.items, some e⟩
    | none => ⟨t.items ++ (concatTraces ts).items, (concatTraces ts).err⟩

/-- The server-side `normalize`: a `string` or `Promise` is `await`-ed and
yielded as one item (a rejected promise aborts with its error and yields
nothing); a generator — sync or async — is passed through by `yield*`. -/
def normalize {T : Type} : Streamable T → GenTrace T
  | Streamable.immediate v => ⟨[v], none⟩
  | Streamable.deferred (Except.ok v) => ⟨[v], none⟩
  | Streamable.deferred (Except.error e) => ⟨[], some e⟩
  | Streamable.gen t => t
  | Streamable.asyncGen t => t

/-- The loop of `interleave` starting at literal index `i`: yield the
literal, then `expressions[i]` when `i < expressions.length`, then continue
with the next index. -/
def interleaveFrom {T : Type} (expressions : List T) :
    Nat → List String → List (String ⊕ T)
  | _, [] => []
  | i, l :: ls =>
    Sum.inl l ::
      ((match expressions.get? i with
        | some e => [Sum.inr e]
        | none => []) ++ interleaveFrom expressions (i + 1) ls)

/-- The `interleave` generator: iterates `literals.entries()` from index 0. -/
def interleave {T : Type} (literals : List String) (expressions : List T) :
    List (String ⊕ T) :=
  interleaveFrom expressions 0 literals

/-- One `normalize(value)` call of the `stream` loop on the
`string | Streamable<string>` union: a literal string takes `normalize`'s
plain-string branch, an interpolated expression is normalized as is. -/
def normalizeInterleaved : String ⊕ Streamable String → GenTrace String
  | Sum.inl l => normalize (Streamable.immediate l)
  | Sum.inr s => normalize s

/-- The `stream` tagged-template generator: for each interleaved value,
`yield* normalize(value)`. -/
def stream (literals : List String) (expressions : List (Streamable String)) :
    GenTrace String :=
  concatTraces ((interleave literals expressions).map normalizeInterleaved)

/-- Index-free equivalent of `interleaveFrom`, consuming the remaining
expressions alongside the literals; used to reason about `interleave` by
structural induction. -/
def interleavePair {T : Type} : List T → List String → List (String ⊕ T)
  | _, [] => []
  | [], l :: ls => Sum.inl l :: interleavePair [] ls
  | e :: es, l :: ls => Sum.inl l :: Sum.inr e :: interleavePair es ls

/-- Item order claimed for `stream`: at each position, the literal, then —
when an interpolated value exists at that position — the items of its
normalization, before the next literal. -/
def streamItemsSpec : List String → List (Streamable String) → List String
  | [], _ => []
  | l :: ls, [] => l :: streamItemsSpec ls []
  | l :: ls, s :: ss => l :: ((normalize s).items ++ streamItemsSpec ls ss)

/-- A service-worker `Request`, reduced to the pieces `serve` inspects:
the URL's path and its query parameters in order. -/
structure Request where
  pathname : String
  searchParams : List (String × String)

/-- JavaScript `await` applied to a `Streamable` value: a promise resolves
to its value (or throws its rejection); any other shape is returned
unchanged. -/
def awaitStreamable {T : Type} : Streamable T → Except String (Streamable T)
  | Streamable.deferred (Except.ok v) => Except.ok (Streamable.immediate v)
  | Streamable.deferred (Except.error e) => Except.error e
  | s => Except.ok s

/-- Observable outcome of `ServiceWorkerServer.serve`: the request was
proxied to the real backend untouched, or answered with a streamed body
and a content type, or an `await` in `serve` threw. -/
inductive ServeResult where
  | proxied
  | response (body : GenTrace String) (contentType : String)
  | threw (e : String)
deriving DecidableEq

/-- Embedding of `ServiceWorkerServer.serve`: look the path up in the
routing table (miss → proxy), `await` the handler's content, choose the
bare content when `?fragment` is present and the `await`-ed page wrapper
otherwise, and stream the normalization of the choice as a `text/html`
response. -/
def serve (routes : List (String × (Request → Streamable String)))
    (wrapContent : Request → Streamable String → Streamable String)
    (req : Request) : ServeResult :=
  match routes.lookup req.pathname with
  | none => ServeResult.proxied
  | some handler =>
    match awaitStreamable (handler req) with
    | Except.error e => ServeResult.threw e
    | Except.ok content =>
      let requestingFragment := req.searchParams.any fun p => p.1 == "fragment"
      if requestingFragment then
        ServeResult.response (normalize content) "text/html"
      else
        match awaitStreamable (wrapContent req content) with
        | Except.error e => ServeResult.threw e
        | Except.ok res => ServeResult.response (normalize res) "text/html"

end SwServer

namespace FragRouter

/-- A DOM node appended into an outlet, abstracted to its serialized
content. -/
def Node := String
deriving instance DecidableEq, Repr for Node

/-- A live `<router-outlet>` element: `id` gives it object identity
(distinct `document.createElement` calls yield distinct ids), `children`
its appended content. -/
structure Outlet where
  id : Nat
  children : List Node
deriving DecidableEq, Repr

/-- `Map.get` on the fragment cache (first matching key). -/
def cacheGet (cache : List (String × Outlet)) (key : String) : Option Outlet :=
  cache.lookup key

/-- `Map.set` on the fragment cache: overwrite the entry of an existing
key in place, otherwise append a new entry. -/
def cacheSet (cache : List (String × Outlet)) (key : String) (value : Outlet) :
    List (String × Outlet) :=
  match cache with
  | [] => [(key, value)]
  | (k, v) :: rest =>
    if k == key then (key, value) :: rest else (k, v) :: cacheSet rest key value

/-- Result of `await this.route(route)` followed by client-side
`normalize`: either the promise rejected, or it resolved and the resulting
node sequence ran with trace `nodes`/`err` (for a `DocumentFragment`,
`nodes` is its child list and `err` is `none`). -/
inductive ResolverResult where
  | rejected (e : String)
  | resolved (nodes : List Node) (err : Option String)

/-- The mutable world `navigate` touches: the module-level `currentRoute`,
the address bar (as written by `history.replaceState`), the router's
outlet cache, the outlet currently in the document (if any), and a
counter supplying fresh outlet ids to `document.createElement`. -/
structure RouterState where
  currentRoute : Route
  historyUrl : String
  cache : List (String × Outlet)
  doc : Option Outlet
  nextOutletId : Nat
deriving DecidableEq, Repr

/-- How a `navigate` call returned: normally, or by throwing. -/
inductive NavResult where
  | ok
  | threw (e : String)
deriving DecidableEq, Repr

/-- Everything observable about one `navigate` call: the final state, how
the call returned, and whether the user-supplied `route()` resolver was
invoked. -/
structure NavOutcome where
  state : RouterState
  result : NavResult
  resolverCalled : Bool
deriving DecidableEq, Repr

/-- Embedding of `BaseRouter.navigate`, step by step:
1. save `prevRoute`, assign `currentRoute := route`, return if
   `routeEquals` holds (it may also throw, from `zip`);
2. `history.replaceState` with `path + hash`;
3. find the live outlet (`throw` if absent);
4. cache the old outlet under `prevRoute`'s canonical string;
5. on a cache hit for the new route, splice the cached outlet in and
   return;
6. otherwise `await this.route(currentRoute)` (a rejection propagates
   while the old outlet is still in the document), then create a fresh
   outlet, splice it in, and append the streamed nodes in order (a
   mid-stream error leaves the nodes appended so far). -/
def navigate (resolver : Route → ResolverResult) (s : RouterState)
    (route : Route) : NavOutcome :=
  let prevRoute := s.currentRoute
  let s1 : RouterState := { s with currentRoute := route }
  match routeEquals prevRoute s1.currentRoute with
  | Except.error e => ⟨s1, NavResult.threw e, false⟩
  | Except.ok true => ⟨s1, NavResult.ok, false⟩
  | Except.ok false =>
    let s2 : RouterState := { s1 with historyUrl := route.path ++ route.hash }
    match s2.doc with
    | none => ⟨s2, NavResult.threw "No router-outlet element to replace.", false⟩
    | some oldOutlet =>
      let s3 : RouterState :=
        { s2 with cache := cacheSet s2.cache prevRoute.canonical oldOutlet }
      match cacheGet s3.cache s3.currentRoute.canonical with
      | some cachedOutlet =>
        ⟨{ s3 with doc := some cachedOutlet }, NavResult.ok, false⟩
      | none =>
        match resolver s3.currentRoute with
        | ResolverResult.rejected e => ⟨s3, NavResult.threw e, true⟩
        | ResolverResult.resolved nodes err =>
          let newOutlet : Outlet := ⟨s3.nextOutletId, nodes⟩
          let s4 : RouterState :=
            { s3 with doc := some newOutlet, nextOutletId := s3.nextOutletId + 1 }
          match err with
          | none => ⟨s4, NavResult.ok, true⟩
          | some e => ⟨s4, NavResult.threw e, true⟩

end FragRouter

namespace FragRouter

/-- Helper: on equal-length parameter lists, the pairwise in-order
comparison of `routeEquals` succeeds exactly when the lists are equal. -/
theorem paramsPairsEqual_zip_iff (p1 p2 : List (String × String))
    (h : p1.length = p2.length) :
    paramsPairsEqual (p1.zip p2) = true ↔ p1 = p2 := by
  induction p1 generalizing p2 with
  | nil =>
    cases p2 with
    | nil => simp [paramsPairsEqual]
    | cons b bs => simp at h
  | cons a as ih =>
    cases p2 with
    | nil => simp at h
    | cons b bs =>
      obtain ⟨a1, a2⟩ := a
      obtain ⟨b1, b2⟩ := b
      simp only [List.length_cons, Nat.add_right_cancel_iff] at h
      have ihb := ih bs h
      simp only [List.zip_cons_cons, paramsPairsEqual]
      by_cases h1 : a1 = b1
      · by_cases h2 : a2 = b2
        · subst h1; subst h2
          simpa [List.zip] using ihb
        · simp [h1, h2]
      · simp [h1]

/-- C9: `routeEquals` returns `ok false` without raising the
length-mismatch error whenever the paths differ or the hashes differ,
because those comparisons short-circuit before the parameter `zip`. -/
theorem routeEquals_short_circuits (first second : Route)
    (h : first.path ≠ second.path ∨ first.hash ≠ second.hash) :
    routeEquals first second = Except.ok false := by
  unfold routeEquals
  rcases h with h | h
  · simp [h]
  · by_cases hp : first.path = second.path
    · simp [hp, h]
    · simp [hp]

/-- Witness for C9 at concrete routes whose hashes differ and whose
parameter lists also have different lengths. -/
theorem routeEquals_short_circuits_witness :
    routeEquals ⟨"/a", [], "#x"⟩ ⟨"/a", [("k", "v")], "#y"⟩ = Except.ok false :=
  routeEquals_short_circuits _ _ (Or.inr (by decide))

/-- C2 counterexample: two routes whose parameter lists have lengths 0 and
1 for which `routeEquals` returns the boolean `ok false` instead of
raising an error, because the paths already differ. -/
theorem routeEquals_lengthMismatch_not_universal :
    ([] : List (String × String)).length ≠ [("q", "1")].length ∧
    routeEquals ⟨"/one", [], ""⟩ ⟨"/two", [("q", "1")], ""⟩ = Except.ok false := by
  decide

/-- C2 (amended): when the paths and hashes are equal, `routeEquals` on
parameter lists of different lengths raises the length-mismatch error of
`zip` instead of returning a boolean. -/
theorem routeEquals_lengthMismatch (first second : Route)
    (hp : first.path = second.path) (hh : first.hash = second.hash)
    (hl : first.params.length ≠ second.params.length) :
    ∃ e, routeEquals first second = Except.error e := by
  refine ⟨"Cannot zip() arrays of differing lengths (" ++
    toString first.params.length ++ " !== " ++
    toString second.params.length ++ ").", ?_⟩
  unfold routeEquals zip
  simp [hp, hh, hl]

/-- Witness for amended C2 at concrete same-path same-hash routes with 0
and 1 parameters. -/
theorem routeEquals_lengthMismatch_witness :
    ∃ e, routeEquals ⟨"/a", [], ""⟩ ⟨"/a", [("k", "v")], ""⟩ = Except.error e :=
  routeEquals_lengthMismatch ⟨"/a", [], ""⟩ ⟨"/a", [("k", "v")], ""⟩ rfl rfl (by decide)

/-- C8: routes with equal path and hash whose equal-length parameter lists
hold the same pairs in a different order are not equal: the pairwise
in-order comparison returns `ok false`. -/
theorem routeEquals_order_sensitive (first second : Route)
    (hp : first.path = second.path) (hh : first.hash = second.hash)
    (hperm : first.params.Perm second.params)
    (hne : first.params ≠ second.params) :
    routeEquals first second = Except.ok false := by
  have hlen := hperm.length_eq
  have hfalse : paramsPairsEqual (first.params.zip second.params) = false := by
    by_contra hb
    rw [Bool.not_eq_false] at hb
    exact hne ((paramsPairsEqual_zip_iff _ _ hlen).mp hb)
  unfold routeEquals zip
  simp [hp, hh, hlen, hfalse]

/-- Witness for C8: same path and hash, parameters `a=1,b=2` against
`b=2,a=1`. -/
theorem routeEquals_order_sensitive_witness :
    routeEquals ⟨"/a", [("a", "1"), ("b", "2")], ""⟩
      ⟨"/a", [("b", "2"), ("a", "1")], ""⟩ = Except.ok false :=
  routeEquals_order_sensitive _ _ rfl rfl (by decide) (by decide)

end FragRouter

namespace FragRouter

/-- C10: every `navigate` call reassigns the module-level `currentRoute`
to the requested route before anything else, so after any navigate
attempt — no-op, cache hit, failure, or missing outlet — `currentRoute`
is the most recently requested route. -/
theorem navigate_sets_currentRoute (resolver : Route → ResolverResult)
    (s : RouterState) (route : Route) :
    (navigate resolver s route).state.currentRoute = route := by
  unfold navigate
  dsimp only
  repeat' split
  all_goals rfl

/-- C4: navigating to a route equal to the currently-displayed route
returns without touching the history, the cache, or the document outlet,
and without invoking the route resolver; only `currentRoute` is replaced
by the (equal) requested route. -/
theorem navigate_noop_on_equal_route (resolver : Route → ResolverResult)
    (s : RouterState) (route : Route)
    (h : routeEquals s.currentRoute route = Except.ok true) :
    navigate resolver s route =
      ⟨{ s with currentRoute := route }, NavResult.ok, false⟩ := by
  unfold navigate
  simp [h]

/-- Witness for C4: a concrete no-op navigation; the history URL, cache,
document outlet, and outlet-id counter come out unchanged. -/
theorem navigate_noop_witness :
    navigate (fun _ => ResolverResult.rejected "network down")
      ⟨⟨"/", [("a", "1")], ""⟩, "/", [("/old", ⟨0, ["x"]⟩)], some ⟨1, ["y"]⟩, 2⟩
      ⟨"/", [("a", "1")], ""⟩ =
      ⟨⟨⟨"/", [("a", "1")], ""⟩, "/", [("/old", ⟨0, ["x"]⟩)], some ⟨1, ["y"]⟩, 2⟩,
        NavResult.ok, false⟩ :=
  navigate_noop_on_equal_route _ _ _ (by decide)

/-- C3: on a cache hit for the destination route's canonical string, the
exact cached outlet node replaces the just-detached one and `navigate`
returns at once — the resolver is never invoked, and the only other
effects are the `currentRoute`/history updates and caching the old
outlet. -/
theorem navigate_cache_hit (resolver : Route → ResolverResult)
    (s : RouterState) (route : Route) (oldOutlet cachedOutlet : Outlet)
    (hne : routeEquals s.currentRoute route = Except.ok false)
    (hdoc : s.doc = some oldOutlet)
    (hhit : cacheGet (cacheSet s.cache s.currentRoute.canonical oldOutlet)
      route.canonical = some cachedOutlet) :
    navigate resolver s route =
      ⟨⟨route, route.path ++ route.hash,
        cacheSet s.cache s.currentRoute.canonical oldOutlet,
        some cachedOutlet, s.nextOutletId⟩, NavResult.ok, false⟩ := by
  unfold navigate
  simp [hne, hdoc, hhit]

/-- Witness for C3: a second visit to `/` finds its outlet (id 7, with its
streamed-in children) in the cache and splices that very node back in,
with the resolver reported uncalled. -/
theorem navigate_cache_hit_witness :
    navigate (fun _ => ResolverResult.rejected "should not be called")
      ⟨⟨"/counter/", [], ""⟩, "/counter/", [("/", ⟨7, ["home"]⟩)],
        some ⟨3, ["counter"]⟩, 9⟩
      ⟨"/", [], ""⟩ =
      ⟨⟨⟨"/", [], ""⟩, "/", [("/", ⟨7, ["home"]⟩), ("/counter/", ⟨3, ["counter"]⟩)],
        some ⟨7, ["home"]⟩, 9⟩, NavResult.ok, false⟩ :=
  navigate_cache_hit _ _ _ _ _ (by decide) (by decide) (by decide)

end FragRouter

namespace FragRouter

/-- C1 counterexample: a concrete cache-miss navigation whose resolver
promise rejects. `navigate` awaits the resolver *before* creating any new
outlet, so the failure leaves the document still holding the old outlet
(id 0, children `["old"]`), allocates no fresh outlet (the outlet-id
counter is still 5), and returns by throwing — contradicting the claim
that a fresh empty outlet is spliced in before the resolver is invoked
and left in the document on failure. The address bar is updated and the
resolver was indeed invoked. -/
theorem navigate_rejection_keeps_old_outlet :
    navigate (fun _ => ResolverResult.rejected "fetch failed")
      ⟨⟨"/", [], ""⟩, "/", [], some ⟨0, ["old"]⟩, 5⟩ ⟨"/next/", [], ""⟩ =
      ⟨⟨⟨"/next/", [], ""⟩, "/next/", [("/", ⟨0, ["old"]⟩)], some ⟨0, ["old"]⟩, 5⟩,
        NavResult.threw "fetch failed", true⟩ := by
  decide

/-- C1 (amended): on a cache miss `navigate` awaits the route resolver
before splicing anything. If the resolver's promise rejects, the old
outlet is still the one in the document and no fresh outlet was allocated
(though the address bar is already updated and the old outlet already
cached); only if the resolver resolves and its streamed sequence fails
later is the document left with the new, partially filled outlet spliced
in. -/
theorem navigate_cache_miss_failure (resolver : Route → ResolverResult)
    (s : RouterState) (route : Route) (oldOutlet : Outlet)
    (hne : routeEquals s.currentRoute route = Except.ok false)
    (hdoc : s.doc = some oldOutlet)
    (hmiss : cacheGet (cacheSet s.cache s.currentRoute.canonical oldOutlet)
      route.canonical = none) :
    (∀ e, resolver route = ResolverResult.rejected e →
      navigate resolver s route =
        ⟨⟨route, route.path ++ route.hash,
          cacheSet s.cache s.currentRoute.canonical oldOutlet,
          some oldOutlet, s.nextOutletId⟩, NavResult.threw e, true⟩) ∧
    (∀ nodes e, resolver route = ResolverResult.resolved nodes (some e) →
      navigate resolver s route =
        ⟨⟨route, route.path ++ route.hash,
          cacheSet s.cache s.currentRoute.canonical oldOutlet,
          some ⟨s.nextOutletId, nodes⟩, s.nextOutletId + 1⟩,
          NavResult.threw e, true⟩) := by
  constructor
  · intro e hres
    unfold navigate
    simp [hne, hdoc, hmiss, hres]
  · intro nodes e hres
    unfold navigate
    simp [hne, hdoc, hmiss, hres]

/-- Witness for amended C1: the rejection branch at a concrete state, and
the mid-stream-failure branch at another, both discharged through the
amended theorem. -/
theorem navigate_cache_miss_failure_witness :
    navigate (fun _ => ResolverResult.rejected "offline")
      ⟨⟨"/", [], ""⟩, "/", [], some ⟨2, ["home"]⟩, 3⟩ ⟨"/about/", [], ""⟩ =
      ⟨⟨⟨"/about/", [], ""⟩, "/about/", [("/", ⟨2, ["home"]⟩)],
        some ⟨2, ["home"]⟩, 3⟩, NavResult.threw "offline", true⟩ ∧
    navigate (fun _ => ResolverResult.resolved ["<p>", "<q>"] (some "stream died"))
      ⟨⟨"/", [], ""⟩, "/", [], some ⟨2, ["home"]⟩, 3⟩ ⟨"/about/", [], ""⟩ =
      ⟨⟨⟨"/about/", [], ""⟩, "/about/", [("/", ⟨2, ["home"]⟩)],
        some ⟨3, ["<p>", "<q>"]⟩, 4⟩, NavResult.threw "stream died", true⟩ :=
  ⟨(navigate_cache_miss_failure _ _ _ _ (by decide) (by decide) (by decide)).1
      "offline" rfl,
    (navigate_cache_miss_failure _ _ _ _ (by decide) (by decide) (by decide)).2
      ["<p>", "<q>"] "stream died" rfl⟩

end FragRouter

namespace SwServer

/-- C5: `normalize` maps an immediate value to the one-item sequence of
that value, an eager two-element sequence to both items in original
order, and a deferred value whose promise fails to a sequence with zero
items that fails with the original error. -/
theorem normalize_basic_shapes (x a b e : String) :
    normalize (Streamable.immediate x) = ⟨[x], none⟩ ∧
    normalize (Streamable.gen ⟨[a, b], none⟩) = ⟨[a, b], none⟩ ∧
    normalize (Streamable.deferred (Except.error e) : Streamable String) =
      ⟨[], some e⟩ :=
  ⟨rfl, rfl, rfl⟩

/-- Helper: `normalize` on a plain value yields just that value. -/
theorem normalize_immediate {T : Type} (v : T) :
    normalize (Streamable.immediate v) = ⟨[v], none⟩ := rfl

/-- Helper: the head of a dropped list is the element at the drop index. -/
theorem head?_drop_get? {T : Type} (l : List T) (n : Nat) :
    (l.drop n).head? = l[n]? := by
  induction l generalizing n with
  | nil => simp
  | cons a as ih =>
    cases n with
    | zero => simp
    | succ m => simp [ih m]

/-- Helper: the indexed interleaving loop from position `i` coincides with
the index-free interleaving of the literals with the expressions left
after dropping `i`. -/
theorem interleaveFrom_eq_pair {T : Type} (expressions : List T)
    (literals : List String) (i : Nat) :
    interleaveFrom expressions i literals =
      interleavePair (expressions.drop i) literals := by
  induction literals generalizing i with
  | nil => simp [interleaveFrom, interleavePair]
  | cons l ls ih =>
    cases hd : expressions.drop i with
    | nil =>
      have hg : expressions[i]? = none := by
        rw [← head?_drop_get?, hd]; rfl
      have hd1 : expressions.drop (i + 1) = [] := by
        have h1 : (expressions.drop i).drop 1 = [] := by rw [hd]; rfl
        rwa [List.drop_drop] at h1
      simp [interleaveFrom, interleavePair, hg, hd1, ih]
    | cons e rest =>
      have hg : expressions[i]? = some e := by
        rw [← head?_drop_get?, hd]; rfl
      have hd1 : expressions.drop (i + 1) = rest := by
        have h1 : (expressions.drop i).drop 1 = rest := by rw [hd]; rfl
        rwa [List.drop_drop] at h1
      simp [interleaveFrom, interleavePair, hg, hd1, ih]

/-- Helper: when every expression normalizes without error, streaming the
index-free interleaving yields the position-by-position item order and no
error. -/
theorem concatTraces_interleavePair (literals : List String)
    (expressions : List (Streamable String))
    (h : ∀ s ∈ expressions, (normalize s).err = none) :
    concatTraces ((interleavePair expressions literals).map normalizeInterleaved) =
      ⟨streamItemsSpec literals expressions, none⟩ := by
  induction literals generalizing expressions with
  | nil => cases expressions <;> rfl
  | cons l ls ih =>
    cases expressions with
    | nil =>
      have ih0 := ih [] (by simp)
      simp [interleavePair, normalizeInterleaved, concatTraces, normalize,
        streamItemsSpec, ih0]
    | cons s ss =>
      have hs : (normalize s).err = none := h s (by simp)
      have ih1 := ih ss (fun t ht => h t (by simp [ht]))
      simp [interleavePair, normalizeInterleaved, concatTraces,
        normalize_immediate, streamItemsSpec, ih1, hs]

/-- C6: the template-style producer applied to literals `<a>`, `<b>` with
the one interpolated `Immediate("X")` yields exactly `<a>`, `X`, `<b>` in
that order; in general (for error-free interpolations) it yields, at each
position, the literal and then all items of the interpolated value's
normalization, before the next literal. -/
theorem stream_interleaves (literals : List String)
    (expressions : List (Streamable String))
    (h : ∀ s ∈ expressions, (normalize s).err = none) :
    stream ["<a>", "<b>"] [Streamable.immediate "X"] =
      ⟨["<a>", "X", "<b>"], none⟩ ∧
    stream literals expressions = ⟨streamItemsSpec literals expressions, none⟩ := by
  constructor
  · decide
  · unfold stream interleave
    rw [interleaveFrom_eq_pair]
    simpa using concatTraces_interleavePair literals expressions h

/-- Witness for C6 at a deferred interpolation that resolves: the shell
literals surround the resolved item in order. -/
theorem stream_interleaves_witness :
    stream ["<p>", "</p>"] [Streamable.deferred (Except.ok "hi")] =
      ⟨["<p>", "hi", "</p>"], none⟩ := by
  have h := stream_interleaves ["<p>", "</p>"]
    [Streamable.deferred (Except.ok "hi")] (by decide)
  exact h.2.trans (by decide)

end SwServer

namespace SwServer

/-- C7: for a request whose path has a handler in the routing table (and
whose `await`s succeed), `serve` streams the normalization of the
handler's content directly when the query string carries the `fragment`
flag, and the normalization of the page wrapper applied to that content
when the flag is absent; both responses carry content type `text/html`. -/
theorem serve_fragment_or_wrapped
    (routes : List (String × (Request → Streamable String)))
    (wrapContent : Request → Streamable String → Streamable String)
    (req : Request) (handler : Request → Streamable String)
    (content : Streamable String)
    (hlook : routes.lookup req.pathname = some handler)
    (hcontent : awaitStreamable (handler req) = Except.ok content) :
    ((req.searchParams.any fun p => p.1 == "fragment") = true →
      serve routes wrapContent req =
        ServeResult.response (normalize content) "text/html") ∧
    (∀ wrapped, (req.searchParams.any fun p => p.1 == "fragment") = false →
      awaitStreamable (wrapContent req content) = Except.ok wrapped →
      serve routes wrapContent req =
        ServeResult.response (normalize wrapped) "text/html") := by
  constructor
  · intro hflag
    unfold serve
    simp [hlook, hcontent, hflag]
  · intro wrapped hflag hwrap
    unfold serve
    simp [hlook, hcontent, hflag, hwrap]

/-- Witness for C7: the demo routing table serving `/` — with the
`fragment` flag the bare fragment is streamed; without it, the wrapped
page; both as `text/html`. -/
theorem serve_fragment_or_wrapped_witness :
    serve [("/", fun _ => Streamable.immediate "<h2>Hello, World 2!</h2>")]
      (fun _ c => Streamable.gen
        ⟨["<html>"] ++ (normalize c).items ++ ["</html>"], (normalize c).err⟩)
      ⟨"/", [("fragment", "")]⟩ =
      ServeResult.response ⟨["<h2>Hello, World 2!</h2>"], none⟩ "text/html" ∧
    serve [("/", fun _ => Streamable.immediate "<h2>Hello, World 2!</h2>")]
      (fun _ c => Streamable.gen
        ⟨["<html>"] ++ (normalize c).items ++ ["</html>"], (normalize c).err⟩)
      ⟨"/", []⟩ =
      ServeResult.response ⟨["<html>", "<h2>Hello, World 2!</h2>", "</html>"], none⟩
        "text/html" := by
  constructor
  · have h := serve_fragment_or_wrapped
      [("/", fun _ => Streamable.immediate "<h2>Hello, World 2!</h2>")]
      (fun _ c => Streamable.gen
        ⟨["<html>"] ++ (normalize c).items ++ ["</html>"], (normalize c).err⟩)
      ⟨"/", [("fragment", "")]⟩
      (fun _ => Streamable.immediate "<h2>Hello, World 2!</h2>")
      (Streamable.immediate "<h2>Hello, World 2!</h2>") rfl rfl
    exact (h.1 (by decide)).trans (by decide)
  · have h := serve_fragment_or_wrapped
      [("/", fun _ => Streamable.immediate "<h2>Hello, World 2!</h2>")]
      (fun _ c => Streamable.gen
        ⟨["<html>"] ++ (normalize c).items ++ ["</html>"], (normalize c).err⟩)
      ⟨"/", []⟩
      (fun _ => Streamable.immediate "<h2>Hello, World 2!</h2>")
      (Streamable.immediate "<h2>Hello, World 2!</h2>") rfl rfl
    exact (h.2 _ (by decide) rfl).trans (by decide)

end SwServer
